import Mathlib

/-!
Shallow embedding of the authentication core of the FastAPI-architectury
repository (src/app/auth/jwt.py, src/app/auth/dependencies.py,
src/app/core/config.py, src/app/services/user.py, src/app/models).

Python dicts over primitive JSON-able values are modelled as association
lists `List (String × PyValue)`; Python exceptions as an error type `PyErr`
threaded through `Except`; wall-clock time as `Nat` seconds passed
explicitly where the source calls `datetime.now(UTC)`.  The python-jose
library calls (`jwt.encode`, `jwt.decode`) and the passlib `CryptContext`
calls are modelled by concrete Lean functions following the library
behaviour the source relies on; the compact base64url serialisation of a
token is abstracted to the inductive `TokenWire` (header algorithm, claims
payload, signature string), with unparseable strings as `TokenWire.malformed`.
-/

set_option autoImplicit false

namespace FastApiAuth

/-- A primitive Python value as it occurs in a claims mapping:
a string, an integer (also JWT numeric timestamps), an enum-like object
carrying a `.value` attribute (modelled by its underlying string value),
or a `datetime` (modelled by its POSIX timestamp in seconds). -/
inductive PyValue where
  | pstr (s : String)
  | pint (n : Int)
  | penum (v : String)
  | pdatetime (t : Nat)
deriving DecidableEq, Repr

/-- A Python dict with string keys, as an association list (first match wins). -/
def Claims : Type := List (String × PyValue)

instance : DecidableEq Claims := inferInstanceAs (DecidableEq (List (String × PyValue)))

/-- `d.get(k)`: first value bound to `k`, if any. -/
def dictGet (d : Claims) (k : String) : Option PyValue :=
  (d.find? (fun p => p.1 = k)).map Prod.snd

/-- `d[k] = v` / `d.update({k: v})`: rebind `k`, keeping the other keys. -/
def dictSet (d : Claims) (k : String) (v : PyValue) : Claims :=
  (k, v) :: d.filter (fun p => p.1 ≠ k)

/-- Python exceptions that the embedded code can raise. `appException`
carries the structured `{code, status_code, detail}` of
`core/exceptions.py:AppException`; `expiredSignatureError` and `jwtError`
are the python-jose exceptions (`ExpiredSignatureError` is a subclass of
`JWTError` in jose, so handlers for it must come first, as in the source);
`valueError`/`typeError` are the Python builtins. -/
inductive PyErr where
  | expiredSignatureError
  | jwtError (msg : String)
  | valueError (msg : String)
  | typeError (msg : String)
  | appException (code : String) (status_code : Nat) (detail : String)
deriving DecidableEq, Repr

/-- The JWT-relevant fields of `core/config.py:Settings` (default values;
no `.env` file overrides them in this model). -/
structure Settings where
  jwt_secret_key : String
  jwt_algorithm : String
  jwt_access_token_expire_minutes : Nat
  jwt_refresh_token_expire_hours : Nat

def settings : Settings :=
  { jwt_secret_key := "your-secret-key-change-in-production"
    jwt_algorithm := "HS256"
    jwt_access_token_expire_minutes := 10080
    jwt_refresh_token_expire_hours := 168 }

/-- A compact JWS token after base64url deframing: the header's `alg`,
the claims payload, and the signature segment (a string, so that
"change one character of the signature" is expressible).  A string that
does not deframe into three segments is `malformed`. -/
inductive TokenWire where
  | jws (alg : String) (payload : Claims) (sig : String)
  | malformed (raw : String)
deriving DecidableEq

/-- Rendering of a claims payload used inside the signature model. -/
def serializeValue : PyValue → String
  | .pstr s => "s:" ++ s
  | .pint n => "i:" ++ toString n
  | .penum v => "e:" ++ v
  | .pdatetime t => "d:" ++ toString t

def serializeClaims (d : Claims) : String :=
  d.foldl (fun acc p => acc ++ "|" ++ p.1 ++ "=" ++ serializeValue p.2) ""

/-- The HS256 MAC over header+payload, keyed by the secret.  Only its
functional dependence on (secret, alg, payload) matters for the proofs:
the signature of a valid token equals `mac secret alg payload`, and a
signature differing from it in any character fails verification. -/
def mac (secret alg : String) (payload : Claims) : String :=
  "hmac(" ++ secret ++ ";" ++ alg ++ ";" ++ serializeClaims payload ++ ")"

/-- jose registers `exp`, `iat`, `nbf` as numeric-date claims: a `datetime`
value at one of these keys is encoded as its POSIX timestamp. -/
def joseEncodeValue (k : String) (v : PyValue) : PyValue :=
  if k = "exp" ∨ k = "iat" ∨ k = "nbf" then
    match v with
    | .pdatetime t => .pint (Int.ofNat t)
    | v => v
  else v

/-- `jose.jwt.encode(payload, secret, algorithm)`: numeric-date encoding of
the registered claims, then signing. -/
def jwtEncode (payload : Claims) (secret : String) (alg : String) : TokenWire :=
  let p : Claims := payload.map (fun kv => (kv.1, joseEncodeValue kv.1 kv.2))
  .jws alg p (mac secret alg p)

/-- `jose.jwt.decode(token, secret, algorithms, audience)` at wall-clock
`now`: structural deframing, allowed-algorithm check and signature check
(all failing with the generic `JWTError`), then `exp` validation with zero
leeway (`exp < now` raises `ExpiredSignatureError`, so `exp = now` is still
accepted), then audience validation (skipped by every caller in the
source, which always passes `audience=None` and mints no `aud` claim). -/
def jwtDecode (t : TokenWire) (secret : String) (algorithms : List String)
    (audience : Option String) (now : Nat) : Except PyErr Claims :=
  match t with
  | .malformed _ => .error (.jwtError "Not enough segments")
  | .jws alg payload sig =>
    if alg ∉ algorithms then
      .error (.jwtError "The specified alg value is not allowed")
    else if sig ≠ mac secret alg payload then
      .error (.jwtError "Signature verification failed.")
    else
      match dictGet payload "exp" with
      | some (.pint e) =>
        if e < (Int.ofNat now) then
          .error .expiredSignatureError
        else
          match audience with
          | none => .ok payload
          | some a =>
            if dictGet payload "aud" = some (.pstr a) then .ok payload
            else .error (.jwtError "Invalid audience")
      | some _ => .error (.jwtError "Expiration Time claim (exp) must be an integer.")
      | none =>
        match audience with
        | none => .ok payload
        | some a =>
          if dictGet payload "aud" = some (.pstr a) then .ok payload
          else .error (.jwtError "Invalid audience")

/-- `datetime.isoformat()` on the UTC datetime with the given POSIX
timestamp (abstract injective rendering; only used by the claims
normalisation loop for datetime-valued input claims). -/
def isoformatUTC (t : Nat) : String :=
  "1970-01-01T00:00:00+00:00+" ++ toString t ++ "s"

/-- The normalisation loop of `create_access_token`/`create_refresh_token`:
`if hasattr(value, "value"): value.value` (enum unwrapping), `elif
isinstance(value, datetime): value.isoformat()`. -/
def normalizeValue : PyValue → PyValue
  | .penum v => .pstr v
  | .pdatetime t => .pstr (isoformatUTC t)
  | v => v

/-- `auth/jwt.py:create_access_token(data, expires_delta=None)`.
The callers in `services/user.py` pass plain dicts, so the
`dict(data)` branch of the duck-typed conversion applies.  `now` is the
POSIX second of the call (the two `datetime.now(UTC)` calls in the body
are adjacent and modelled as the same instant); `expires_delta` is in
seconds (`timedelta(minutes=m)` is `m * 60` seconds). -/
def create_access_token (data : Claims) (now : Nat) (expires_delta : Option Nat) : TokenWire :=
  let to_encode : Claims := data.map (fun kv => (kv.1, normalizeValue kv.2))
  let expire : Nat := now + (expires_delta.getD (settings.jwt_access_token_expire_minutes * 60))
  let to_encode := dictSet (dictSet to_encode "exp" (.pdatetime expire)) "iat" (.pdatetime now)
  jwtEncode to_encode settings.jwt_secret_key settings.jwt_algorithm

/-- `auth/jwt.py:create_refresh_token(data)`: same shape, TTL in hours
(`timedelta(hours=h)` is `h * 3600` seconds), and injects `type = "refresh"`. -/
def create_refresh_token (data : Claims) (now : Nat) : TokenWire :=
  let to_encode : Claims := data.map (fun kv => (kv.1, normalizeValue kv.2))
  let expire : Nat := now + settings.jwt_refresh_token_expire_hours * 3600
  let to_encode := dictSet (dictSet (dictSet to_encode "exp" (.pdatetime expire)) "iat" (.pdatetime now)) "type" (.pstr "refresh")
  jwtEncode to_encode settings.jwt_secret_key settings.jwt_algorithm

/-- Truthiness of `payload.get(k)` (a value or Python `None`):
`None`, the empty string and `0` are falsy. -/
def pyTruthy : Option PyValue → Bool
  | none => false
  | some (.pstr s) => s ≠ ""
  | some (.pint n) => n ≠ 0
  | some (.penum _) => true
  | some (.pdatetime _) => true

/-- `str(x)` as used by the f-string in `verify_token` (Python `None`
prints as `None`). -/
def pyStrOfOpt : Option PyValue → String
  | none => "None"
  | some (.pstr s) => s
  | some (.pint n) => toString n
  | some (.penum v) => v
  | some (.pdatetime t) => isoformatUTC t

/-- `auth/jwt.py:verify_token(token, secret=None, audience=None,
expected_type=None)`.  `secret = secret or settings.jwt_secret_key`
(Python `or`, so an empty string also falls back).  The `try` block only
catches `ExpiredSignatureError`, re-raising it as
`ValueError("Token has expired")`; every other jose error propagates
unchanged, and the type-mismatch `ValueError` raised inside the `try` is
not caught by the `except ExpiredSignatureError` clause.  The type check
runs only when `expected_type` is truthy (non-`None`, non-empty). -/
def verify_token (token : TokenWire) (now : Nat) (secret : Option String)
    (audience : Option String) (expected_type : Option String) : Except PyErr Claims :=
  let secret : String :=
    match secret with
    | some s => if s ≠ "" then s else settings.jwt_secret_key
    | none => settings.jwt_secret_key
  match jwtDecode token secret [settings.jwt_algorithm] audience now with
  | .error .expiredSignatureError => .error (.valueError "Token has expired")
  | .error e => .error e
  | .ok payload =>
    match expected_type with
    | none => .ok payload
    | some t =>
      if t = "" then .ok payload
      else if dictGet payload "type" = some (.pstr t) then
        .ok payload
      else
        .error (.valueError ("Invalid token type: expected " ++ t ++ ", got "
          ++ pyStrOfOpt (dictGet payload "type")))

/-- A bcrypt digest is recognised by its `$2b$...` modular-crypt prefix.
Model of passlib's hash identification for `CryptContext(schemes=["bcrypt"])`
(character-list implementation so that concrete runs reduce). -/
def isBcryptDigest (s : String) : Bool :=
  "$2b$12$".data.isPrefixOf s.data

/-- The bcrypt digest of `password` under `salt` (abstract keyed model:
what matters is that the digest determines the password/salt pair and
carries the recognisable format prefix). -/
def bcryptHash (password : String) (salt : String) : String :=
  "$2b$12$" ++ salt ++ ":" ++ password

/-- `passlib.CryptContext.verify(plain, hashed)`: if the hash string is not
recognised as one of the configured schemes, passlib raises
`UnknownHashError("hash could not be identified")` (a `ValueError`
subclass); otherwise it recomputes the digest with the salt embedded in
the hash and returns whether it matches (equivalently, whether the part
after the format prefix ends in the separator followed by the password). -/
def cryptContextVerify (plain : String) (hashed : String) : Except PyErr Bool :=
  if isBcryptDigest hashed then
    .ok ((":" ++ plain).data.isSuffixOf (hashed.data.drop 7))
  else
    .error (.valueError "hash could not be identified")

/-- `auth/jwt.py:verify_password(plain_password, hashed_password)`: a direct
delegation to `pwd_context.verify`. -/
def verify_password (plain_password : String) (hashed_password : String) : Except PyErr Bool :=
  cryptContextVerify plain_password hashed_password

/-- `models/user.py:User` together with the `models/base.py:BaseModel`
columns the auth core reads: the numeric primary key `id`, the stable
`public_id` (a UUID, modelled by its string form), the account fields and
the `is_active` flag. -/
structure User where
  id : Int
  public_id : String
  username : String
  email : String
  hashed_password : String
  role : String
  is_active : Bool
deriving DecidableEq, Repr

/-- `request.state` slots written by `get_current_user`.  `none` models an
attribute that has never been assigned on this request. -/
structure RequestState where
  current_user : Option User
  current_role : Option PyValue
deriving DecidableEq, Repr

/-- Strip leading and trailing whitespace, as Python's `int(str)` allows. -/
def pyStrip (cs : List Char) : List Char :=
  ((cs.dropWhile Char.isWhitespace).reverse.dropWhile Char.isWhitespace).reverse

/-- Decimal digit-run parsing: at least one digit, all digits. -/
def parsePyIntDigits (cs : List Char) : Option Nat :=
  if cs ≠ [] ∧ cs.all Char.isDigit then
    some (cs.foldl (fun acc c => acc * 10 + (c.toNat - 48)) 0)
  else none

/-- Decimal integer literal parsing as accepted by Python's `int(str)`:
optional surrounding whitespace, optional sign, then at least one digit. -/
def parsePyInt (s : String) : Option Int :=
  match pyStrip s.data with
  | '-' :: rest => (parsePyIntDigits rest).map (fun n => -(Int.ofNat n))
  | '+' :: rest => (parsePyIntDigits rest).map Int.ofNat
  | cs => (parsePyIntDigits cs).map Int.ofNat

/-- `int(payload.get("sub"))`: `int` of a decoded JSON value.  `None` and
non-numeric non-string values raise `TypeError`; a string that is not a
decimal integer literal raises `ValueError`. -/
def pyIntOfOpt (v : Option PyValue) : Except PyErr Int :=
  match v with
  | none => .error (.typeError "int() argument must be a string, a bytes-like object or a real number, not NoneType")
  | some (.pint n) => .ok n
  | some (.pstr s) =>
    match parsePyInt s with
    | some n => .ok n
    | none => .error (.valueError ("invalid literal for int() with base 10: " ++ s))
  | some (.penum _) => .error (.typeError "int() argument cannot be an enum object")
  | some (.pdatetime _) => .error (.typeError "int() argument cannot be a datetime object")

/-- `result.one_or_none()` on the rows matched by the query: `None` for no
row, the row if unique, and SQLAlchemy's `MultipleResultsFound` error
otherwise. -/
def one_or_none (rows : List User) : Except PyErr (Option User) :=
  match rows with
  | [] => .ok none
  | [u] => .ok (some u)
  | _ => .error (.valueError "Multiple rows were found when one or none was required")

/-- Lines 32-41 of `auth/dependencies.py:get_current_user`: the dual
credential extraction.  `credentials` is the `.credentials` string of the
`HTTPBearer` result (or `None`), `oauth_token` the `OAuth2PasswordBearer`
token (or `None`).  `if credentials and credentials.credentials:` picks the
bearer token when it is a non-empty string; `elif oauth_token:` falls back
to a truthy OAuth2 token; otherwise `MISSING_CREDENTIALS` (401). -/
def extract_token (credentials : Option String) (oauth_token : Option String) :
    Except PyErr String :=
  match credentials with
  | some c =>
    if c ≠ "" then .ok c
    else
      match oauth_token with
      | some t =>
        if t ≠ "" then .ok t
        else .error (.appException "MISSING_CREDENTIALS" 401 "Missing authentication credentials")
      | none => .error (.appException "MISSING_CREDENTIALS" 401 "Missing authentication credentials")
  | none =>
    match oauth_token with
    | some t =>
      if t ≠ "" then .ok t
      else .error (.appException "MISSING_CREDENTIALS" 401 "Missing authentication credentials")
    | none => .error (.appException "MISSING_CREDENTIALS" 401 "Missing authentication credentials")

/-- The body of the `try` in `get_current_user`: verify the token, parse
the subject as an `int`, look the user up by the numeric primary key,
apply the account-state checks, and only then assign both `request.state`
slots (`current_role = role or user.role`, Python `or`). -/
def get_current_user_try (wireOf : String → TokenWire) (db : List User)
    (token : String) (now : Nat) : Except PyErr (User × RequestState) := do
  let payload ← verify_token (wireOf token) now none none none
  let user_id ← pyIntOfOpt (dictGet payload "sub")
  let role : Option PyValue := dictGet payload "role"
  let found ← one_or_none (db.filter (fun u => u.id = user_id))
  match found with
  | none => .error (.appException "USER_NOT_FOUND" 401 "User not found")
  | some user =>
    if !user.is_active then
      .error (.appException "USER_INACTIVE" 403 "User inactive")
    else
      .ok (user, { current_user := some user
                   current_role := if pyTruthy role then role else some (.pstr user.role) })

/-- The `except` clauses of `get_current_user`: `ExpiredSignatureError`
maps to `TOKEN_EXPIRED` (401), any other `JWTError` to `INVALID_TOKEN`
(401); everything else — `ValueError`, `TypeError`, `AppException` raised
inside the `try` — propagates out of the function unchanged. -/
def handleAuthExc : PyErr → PyErr
  | .expiredSignatureError => .appException "TOKEN_EXPIRED" 401 "Token expired"
  | .jwtError _ => .appException "INVALID_TOKEN" 401 "Invalid token"
  | e => e

/-- `auth/dependencies.py:get_current_user`.  `wireOf` is the base64url
deframing of the compact token string (what `jose.jwt.decode` does before
checking anything); `db` the directory rows; `st` the incoming
`request.state`; `now` the wall clock.  Returns the outcome together with
the final `request.state`. -/
def get_current_user (wireOf : String → TokenWire) (db : List User)
    (credentials : Option String) (oauth_token : Option String)
    (st : RequestState) (now : Nat) : Except PyErr User × RequestState :=
  match extract_token credentials oauth_token with
  | .error e => (.error e, st)
  | .ok token =>
    match get_current_user_try wireOf db token now with
    | .ok (user, st') => (.ok user, st')
    | .error e => (.error (handleAuthExc e), st)

/-- Line 86 of `services/user.py:get_login_user` (and line 46 of
`create_user`): the claims minted at login use the stable public
identifier as subject, `{"sub": str(user.public_id), "role": user.role}`. -/
def login_token_data (user : User) : Claims :=
  [("sub", .pstr user.public_id), ("role", .pstr user.role)]

/-! ### Sample data for concrete runs -/

deriving instance DecidableEq for Except

/-- The claims payload carried by a (well-formed) token. -/
def TokenWire.claims : TokenWire → Claims
  | .jws _ p _ => p
  | .malformed _ => []

/-- An active directory row whose stable public identifier is the one from
the end-to-end scenario of the spec. -/
def sampleAdmin : User :=
  { id := 1
    public_id := "abc-123"
    username := "alice"
    email := "alice@example.com"
    hashed_password := "$2b$12$somesalt:secretpw"
    role := "admin"
    is_active := true }

/-- The same account with the active flag cleared. -/
def sampleInactive : User :=
  { sampleAdmin with id := 2, public_id := "def-456", is_active := false }

/-- `sampleAdmin` suspended: same numeric id, `is_active = false`. -/
def sampleAdminSuspended : User :=
  { sampleAdmin with is_active := false }

/-- The empty request state: neither `request.state.current_user` nor
`request.state.current_role` has been assigned. -/
def freshState : RequestState := { current_user := none, current_role := none }

/-! ### Helper lemmas about the dict model -/

theorem dictGet_dictSet_self (d : Claims) (k : String) (v : PyValue) :
    dictGet (dictSet d k v) k = some v := by
  simp [dictGet, dictSet, List.find?]

theorem find?_filter_ne (d : Claims) (k k' : String) (h : k' ≠ k) :
    List.find? (fun p => p.1 = k') (d.filter (fun p => p.1 ≠ k))
      = List.find? (fun p => p.1 = k') d := by
  induction d with
  | nil => rfl
  | cons p d ih =>
    by_cases hp : p.1 = k
    · have hne : ¬(p.1 = k') := by rw [hp]; exact fun hh => h hh.symm
      rw [List.filter_cons_of_neg (by simp [hp]), List.find?_cons_of_neg _ (by simp [hne])]
      exact ih
    · rw [List.filter_cons_of_pos (by simp [hp])]
      by_cases hk' : p.1 = k'
      · rw [List.find?_cons_of_pos _ (by simp [hk']), List.find?_cons_of_pos _ (by simp [hk'])]
      · rw [List.find?_cons_of_neg _ (by simp [hk']), List.find?_cons_of_neg _ (by simp [hk'])]
        exact ih

theorem dictGet_dictSet_ne (d : Claims) (k k' : String) (v : PyValue) (h : k' ≠ k) :
    dictGet (dictSet d k v) k' = dictGet d k' := by
  unfold dictGet dictSet
  rw [List.find?_cons, find?_filter_ne d k k' h]
  simp [Ne.symm h]

theorem dictGet_mapValues (d : Claims) (f : String → PyValue → PyValue) (k : String) :
    dictGet (d.map (fun kv => (kv.1, f kv.1 kv.2))) k = (dictGet d k).map (f k) := by
  unfold dictGet
  induction d with
  | nil => rfl
  | cons p d ih =>
    rw [List.map_cons]
    by_cases hk : p.1 = k
    · rw [List.find?_cons_of_pos _ (by simp [hk]), List.find?_cons_of_pos _ (by simp [hk])]
      simp [hk]
    · rw [List.find?_cons_of_neg _ (by simp [hk]), List.find?_cons_of_neg _ (by simp [hk])]
      exact ih

theorem joseEncodeValue_pstr (k : String) (s : String) :
    joseEncodeValue k (.pstr s) = .pstr s := by
  unfold joseEncodeValue
  split <;> rfl

theorem dictGet_mapValues_const (d : Claims) (f : PyValue → PyValue) (k : String) :
    dictGet (d.map (fun kv => (kv.1, f kv.2))) k = (dictGet d k).map f := by
  unfold dictGet
  induction d with
  | nil => rfl
  | cons p d ih =>
    rw [List.map_cons]
    by_cases hk : p.1 = k
    · rw [List.find?_cons_of_pos _ (by simp [hk]), List.find?_cons_of_pos _ (by simp [hk])]
      simp
    · rw [List.find?_cons_of_neg _ (by simp [hk]), List.find?_cons_of_neg _ (by simp [hk])]
      exact ih

/-- Decoding a token produced by `jwtEncode` under the same secret and
algorithm succeeds (with the numeric-date-encoded payload) whenever the
embedded `exp` is not in the past. -/
theorem jwtDecode_jwtEncode_ok (payload : Claims) (now e : Nat)
    (hexp : dictGet payload "exp" = some (.pdatetime e)) (hfresh : now ≤ e) :
    jwtDecode (jwtEncode payload settings.jwt_secret_key settings.jwt_algorithm)
        settings.jwt_secret_key [settings.jwt_algorithm] none now
      = .ok (payload.map (fun kv => (kv.1, joseEncodeValue kv.1 kv.2))) := by
  have hexp2 : dictGet (payload.map (fun kv => (kv.1, joseEncodeValue kv.1 kv.2))) "exp"
      = some (.pint (Int.ofNat e)) := by
    rw [dictGet_mapValues, hexp]
    simp [joseEncodeValue]
  simp [jwtEncode, jwtDecode, hexp2]
  omega

theorem dictGet_minted_other (A : Claims) (X now : Nat) (k : String)
    (h1 : k ≠ "iat") (h2 : k ≠ "exp") :
    dictGet ((dictSet (dictSet A "exp" (.pdatetime X)) "iat" (.pdatetime now)).map
        (fun kv => (kv.1, joseEncodeValue kv.1 kv.2))) k
      = (dictGet A k).map (joseEncodeValue k) := by
  rw [dictGet_mapValues, dictGet_dictSet_ne _ _ _ _ h1, dictGet_dictSet_ne _ _ _ _ h2]

theorem dictGet_minted_exp (A : Claims) (X now : Nat) :
    dictGet ((dictSet (dictSet A "exp" (.pdatetime X)) "iat" (.pdatetime now)).map
        (fun kv => (kv.1, joseEncodeValue kv.1 kv.2))) "exp"
      = some (.pint (Int.ofNat X)) := by
  rw [dictGet_mapValues, dictGet_dictSet_ne _ _ _ _ (by decide), dictGet_dictSet_self]
  simp [joseEncodeValue]

theorem dictGet_minted_iat (A : Claims) (X now : Nat) :
    dictGet ((dictSet (dictSet A "exp" (.pdatetime X)) "iat" (.pdatetime now)).map
        (fun kv => (kv.1, joseEncodeValue kv.1 kv.2))) "iat"
      = some (.pint (Int.ofNat now)) := by
  rw [dictGet_mapValues, dictGet_dictSet_self]
  simp [joseEncodeValue]

/-! ### Claim theorems -/

/-- C1: a valid-signature token whose `exp` is one second in the past
(minted at 395199, so `exp = 999999 = now - 1` for `now = 1000000`) does
NOT fail with the `TOKEN_EXPIRED` `AppException`: `verify_token` converts
jose's `ExpiredSignatureError` into `ValueError("Token has expired")`, and
`get_current_user` only catches `ExpiredSignatureError` and `JWTError`, so
the `ValueError` escapes the resolver uncaught (an unhandled 500, not a
401), leaving the dedicated `TOKEN_EXPIRED` handler dead code. -/
theorem expired_token_escapes_resolver_as_value_error :
    get_current_user
        (fun _ => create_access_token [("sub", .pstr "1"), ("role", .pstr "admin")] 395199 none)
        [sampleAdmin] (some "bearer-token") none freshState 1000000
      = (.error (.valueError "Token has expired"), freshState)
  ∧ PyErr.valueError "Token has expired"
      ≠ .appException "TOKEN_EXPIRED" 401 "Token expired" := by
  exact ⟨by decide, by decide⟩

/-- C2: the end-to-end scenario fails on the code.  Login mints
`{"sub": str(user.public_id), "role": user.role}` (a UUID-string subject),
but the resolver runs `int(payload.get("sub"))` and looks the account up
by the numeric primary key, so a token for the active principal with
public id "abc-123" raises an uncaught `ValueError` instead of resolving
to that principal. -/
theorem public_id_subject_breaks_resolution :
    get_current_user
        (fun _ => create_access_token (login_token_data sampleAdmin) 1000 none)
        [sampleAdmin] (some "bearer-token") none freshState 1000
      = (.error (.valueError "invalid literal for int() with base 10: abc-123"), freshState) := by
  decide

/-- C9 counterexample: on a malformed (non-digest) second argument,
`verify_password` does not return `false` — passlib raises
`UnknownHashError` (a `ValueError`), which `verify_password` propagates. -/
theorem malformed_digest_raises_not_false :
    verify_password "secretpw" "not-a-digest"
      = .error (.valueError "hash could not be identified")
  ∧ verify_password "secretpw" "not-a-digest" ≠ .ok false := by
  exact ⟨by decide, by decide⟩

/-- C9 amended: for every plaintext and every string that is not a
recognised bcrypt digest, `verify_password` raises passlib's
`UnknownHashError` (it never returns `false` for such input). -/
theorem verify_password_malformed_digest_errors (p d : String)
    (h : isBcryptDigest d = false) :
    verify_password p d = .error (.valueError "hash could not be identified") := by
  unfold verify_password cryptContextVerify
  rw [h]
  simp

/-- Witness for the amended C9 at a concrete malformed digest. -/
theorem verify_password_malformed_digest_errors_witness :
    isBcryptDigest "not-a-digest" = false
  ∧ verify_password "secretpw" "not-a-digest"
      = .error (.valueError "hash could not be identified") :=
  ⟨by decide, verify_password_malformed_digest_errors "secretpw" "not-a-digest" (by decide)⟩

/-- C10: on every failure path of the resolver the request identity
context is untouched: whenever `get_current_user` raises, the returned
`request.state` equals the incoming one (both slots are assigned only
after every check has passed). -/
theorem failure_leaves_request_state_unchanged (wireOf : String → TokenWire)
    (db : List User) (credentials oauth_token : Option String)
    (st : RequestState) (now : Nat) (e : PyErr)
    (h : (get_current_user wireOf db credentials oauth_token st now).1 = .error e) :
    (get_current_user wireOf db credentials oauth_token st now).2 = st := by
  unfold get_current_user at h ⊢
  cases hx : extract_token credentials oauth_token with
  | error e' => rfl
  | ok tok =>
    cases ht : get_current_user_try wireOf db tok now with
    | error e' => simp [ht]
    | ok pr =>
      obtain ⟨u, st'⟩ := pr
      rw [hx] at h
      simp [ht] at h

/-- Witness for C10 at a concrete failing input (missing credentials). -/
theorem failure_leaves_request_state_unchanged_witness :
    (get_current_user (fun r => .malformed r) [] none none freshState 0).2 = freshState :=
  failure_leaves_request_state_unchanged (fun r => .malformed r) [] none none freshState 0
    (.appException "MISSING_CREDENTIALS" 401 "Missing authentication credentials") (by decide)

/-- C3: the two extraction conventions are tried in order.  A non-empty
`HTTPBearer` credential wins regardless of the OAuth2 token; with the
bearer credential absent or empty, a non-empty OAuth2 token is used; with
neither, the resolver fails with `MISSING_CREDENTIALS` (401) and the
request state untouched.  "That token is used" is expressed as: the run is
identical to presenting the winning token alone. -/
theorem credential_extraction_order (wireOf : String → TokenWire) (db : List User)
    (credentials oauth_token : Option String) (st : RequestState) (now : Nat) :
    (∀ c, credentials = some c → c ≠ "" →
        get_current_user wireOf db credentials oauth_token st now
          = get_current_user wireOf db (some c) none st now)
  ∧ ((credentials = none ∨ credentials = some "") →
      ∀ t, oauth_token = some t → t ≠ "" →
        get_current_user wireOf db credentials oauth_token st now
          = get_current_user wireOf db (some t) none st now)
  ∧ ((credentials = none ∨ credentials = some "") →
      (oauth_token = none ∨ oauth_token = some "") →
        get_current_user wireOf db credentials oauth_token st now
          = (.error (.appException "MISSING_CREDENTIALS" 401
              "Missing authentication credentials"), st)) := by
  refine ⟨?_, ?_, ?_⟩
  · rintro c rfl hc
    simp [get_current_user, extract_token, hc]
  · rintro (rfl | rfl) t rfl ht <;>
      simp [get_current_user, extract_token, ht]
  · rintro (rfl | rfl) (rfl | rfl) <;>
      simp [get_current_user, extract_token]

/-- Witness for C3: all three branches at concrete inputs. -/
theorem credential_extraction_order_witness :
    get_current_user (fun r => .malformed r) [] (some "tokA") (some "tokB") freshState 0
      = get_current_user (fun r => .malformed r) [] (some "tokA") none freshState 0
  ∧ get_current_user (fun r => .malformed r) [] none (some "tokB") freshState 0
      = get_current_user (fun r => .malformed r) [] (some "tokB") none freshState 0
  ∧ get_current_user (fun r => .malformed r) [] none none freshState 0
      = (.error (.appException "MISSING_CREDENTIALS" 401
          "Missing authentication credentials"), freshState) :=
  ⟨(credential_extraction_order (fun r => .malformed r) [] (some "tokA") (some "tokB")
      freshState 0).1 "tokA" rfl (by decide),
   (credential_extraction_order (fun r => .malformed r) [] none (some "tokB")
      freshState 0).2.1 (Or.inl rfl) "tokB" rfl (by decide),
   (credential_extraction_order (fun r => .malformed r) [] none none
      freshState 0).2.2 (Or.inl rfl) (Or.inl rfl)⟩

theorem verify_token_jwtError (t : TokenWire) (now : Nat) (m : String)
    (h : jwtDecode t settings.jwt_secret_key [settings.jwt_algorithm] none now
      = .error (.jwtError m)) :
    verify_token t now none none none = .error (.jwtError m) := by
  simp [verify_token, h]

theorem get_current_user_try_of_verify_error (wireOf : String → TokenWire)
    (db : List User) (token : String) (now : Nat) (e : PyErr)
    (h : verify_token (wireOf token) now none none none = .error e) :
    get_current_user_try wireOf db token now = .error e := by
  unfold get_current_user_try
  rw [h]
  rfl

/-- C4: any malformed-structure, wrong-algorithm, or bad-signature token
(in particular a valid token whose signature segment was changed in any
character, so that it no longer equals the MAC of the payload) makes the
resolver fail with the single generic `INVALID_TOKEN` code and status 401,
never a more specific error. -/
theorem invalid_token_collapses_to_generic_error (wireOf : String → TokenWire)
    (db : List User) (st : RequestState) (now : Nat) (c : String) (hc : c ≠ "")
    (htok : match wireOf c with
      | .malformed _ => True
      | .jws alg payload sig =>
          alg ≠ settings.jwt_algorithm ∨ sig ≠ mac settings.jwt_secret_key alg payload) :
    get_current_user wireOf db (some c) none st now
      = (.error (.appException "INVALID_TOKEN" 401 "Invalid token"), st) := by
  obtain ⟨m, hm⟩ : ∃ m, jwtDecode (wireOf c) settings.jwt_secret_key
      [settings.jwt_algorithm] none now = .error (.jwtError m) := by
    cases hw : wireOf c with
    | malformed r => exact ⟨_, rfl⟩
    | jws alg payload sig =>
      rw [hw] at htok
      rcases htok with h | h
      · exact ⟨"The specified alg value is not allowed", by simp [jwtDecode, h]⟩
      · by_cases hmem : alg = settings.jwt_algorithm
        · subst hmem
          exact ⟨"Signature verification failed.", by simp [jwtDecode, h]⟩
        · exact ⟨"The specified alg value is not allowed", by simp [jwtDecode, hmem]⟩
  have ht := get_current_user_try_of_verify_error wireOf db c now _
    (verify_token_jwtError _ now m hm)
  simp [get_current_user, extract_token, hc, ht, handleAuthExc]

/-- Witness for C4: a token whose signature segment does not match the MAC. -/
theorem invalid_token_collapses_to_generic_error_witness :
    get_current_user (fun _ => .jws "HS256" [] "tampered-signature") []
        (some "bearer-token") none freshState 0
      = (.error (.appException "INVALID_TOKEN" 401 "Invalid token"), freshState) :=
  invalid_token_collapses_to_generic_error (fun _ => .jws "HS256" [] "tampered-signature")
    [] freshState 0 "bearer-token" (by decide) (Or.inr (by decide))

theorem ok_bind {α β : Type} (a : α) (f : α → Except PyErr β) :
    ((Except.ok a : Except PyErr α) >>= f) = f a := rfl

theorem verify_token_of_decode_ok (t : TokenWire) (now : Nat) (payload : Claims)
    (h : jwtDecode t settings.jwt_secret_key [settings.jwt_algorithm] none now
      = .ok payload) :
    verify_token t now none none none = .ok payload := by
  simp [verify_token, h]

/-- The success-side shape of the `try` block: once the token decodes to
`payload` and the subject parses to the integer `i`, the outcome is decided
by the directory rows whose primary key equals `i`. -/
theorem get_current_user_try_resolved (wireOf : String → TokenWire) (db : List User)
    (token : String) (now : Nat) (payload : Claims) (i : Int)
    (hdec : jwtDecode (wireOf token) settings.jwt_secret_key [settings.jwt_algorithm]
      none now = .ok payload)
    (hsub : pyIntOfOpt (dictGet payload "sub") = .ok i) :
    get_current_user_try wireOf db token now
      = match one_or_none (db.filter (fun u => u.id = i)) with
        | .error e => .error e
        | .ok none => .error (.appException "USER_NOT_FOUND" 401 "User not found")
        | .ok (some user) =>
          if !user.is_active then
            .error (.appException "USER_INACTIVE" 403 "User inactive")
          else
            .ok (user, { current_user := some user
                         current_role := if pyTruthy (dictGet payload "role")
                                         then dictGet payload "role"
                                         else some (.pstr user.role) }) := by
  unfold get_current_user_try
  rw [verify_token_of_decode_ok _ _ _ hdec, ok_bind]
  rw [hsub, ok_bind]
  cases one_or_none (db.filter (fun u => u.id = i)) with
  | error e => rfl
  | ok o => cases o <;> rfl

/-- C7: for a token that verifies and whose subject parses, the resolver
fails with `USER_NOT_FOUND` (401) when the directory has no row with that
primary key, with `USER_INACTIVE` (403) when the unique row is inactive,
and succeeds with that row otherwise. -/
theorem resolver_directory_checks (wireOf : String → TokenWire) (db : List User)
    (st : RequestState) (now : Nat) (c : String) (payload : Claims) (i : Int)
    (hc : c ≠ "")
    (hdec : jwtDecode (wireOf c) settings.jwt_secret_key [settings.jwt_algorithm]
      none now = .ok payload)
    (hsub : pyIntOfOpt (dictGet payload "sub") = .ok i) :
    (db.filter (fun u => u.id = i) = [] →
        get_current_user wireOf db (some c) none st now
          = (.error (.appException "USER_NOT_FOUND" 401 "User not found"), st))
  ∧ (∀ u, db.filter (fun v => v.id = i) = [u] → u.is_active = false →
        get_current_user wireOf db (some c) none st now
          = (.error (.appException "USER_INACTIVE" 403 "User inactive"), st))
  ∧ (∀ u, db.filter (fun v => v.id = i) = [u] → u.is_active = true →
        (get_current_user wireOf db (some c) none st now).1 = .ok u) := by
  have htry := get_current_user_try_resolved wireOf db c now payload i hdec hsub
  refine ⟨?_, ?_, ?_⟩
  · intro hf
    rw [hf] at htry
    simp only [one_or_none] at htry
    simp [get_current_user, extract_token, hc, htry, handleAuthExc]
  · intro u hf hact
    rw [hf] at htry
    simp only [one_or_none] at htry
    rw [hact] at htry
    simp only [Bool.not_false, if_pos] at htry
    simp [get_current_user, extract_token, hc, htry, handleAuthExc]
  · intro u hf hact
    rw [hf] at htry
    simp only [one_or_none] at htry
    rw [hact] at htry
    simp only [Bool.not_true, Bool.false_eq_true, if_false] at htry
    simp [get_current_user, extract_token, hc, htry]

/-- Witness for C7: the same verified token (subject "1") against an empty
directory, a directory whose row 1 is suspended, and a directory whose
row 1 is active. -/
theorem resolver_directory_checks_witness :
    get_current_user
        (fun _ => create_access_token [("sub", .pstr "1"), ("role", .pstr "admin")] 0 none)
        [] (some "bearer-token") none freshState 0
      = (.error (.appException "USER_NOT_FOUND" 401 "User not found"), freshState)
  ∧ get_current_user
        (fun _ => create_access_token [("sub", .pstr "1"), ("role", .pstr "admin")] 0 none)
        [sampleAdminSuspended] (some "bearer-token") none freshState 0
      = (.error (.appException "USER_INACTIVE" 403 "User inactive"), freshState)
  ∧ (get_current_user
        (fun _ => create_access_token [("sub", .pstr "1"), ("role", .pstr "admin")] 0 none)
        [sampleAdmin] (some "bearer-token") none freshState 0).1 = .ok sampleAdmin :=
  ⟨(resolver_directory_checks _ [] freshState 0 "bearer-token"
      [("iat", .pint 0), ("exp", .pint 604800), ("sub", .pstr "1"), ("role", .pstr "admin")]
      1 (by decide) (by decide) (by decide)).1 (by decide),
   (resolver_directory_checks _ [sampleAdminSuspended] freshState 0 "bearer-token"
      [("iat", .pint 0), ("exp", .pint 604800), ("sub", .pstr "1"), ("role", .pstr "admin")]
      1 (by decide) (by decide) (by decide)).2.1 sampleAdminSuspended (by decide) (by decide),
   (resolver_directory_checks _ [sampleAdmin] freshState 0 "bearer-token"
      [("iat", .pint 0), ("exp", .pint 604800), ("sub", .pstr "1"), ("role", .pstr "admin")]
      1 (by decide) (by decide) (by decide)).2.2 sampleAdmin (by decide) (by decide)⟩

/-- C8 counterexample: a token whose `role` claim is present but the empty
string.  Resolution succeeds, yet the effective role is the principal's
stored role "admin", not the token's role claim "" — `role or user.role`
tests truthiness, not presence. -/
theorem present_but_empty_role_claim_ignored :
    dictGet (TokenWire.claims
        (create_access_token [("sub", .pstr "1"), ("role", .pstr "")] 0 none)) "role"
      = some (.pstr "")
  ∧ get_current_user
        (fun _ => create_access_token [("sub", .pstr "1"), ("role", .pstr "")] 0 none)
        [sampleAdmin] (some "bearer-token") none freshState 0
      = (.ok sampleAdmin,
          { current_user := some sampleAdmin, current_role := some (.pstr "admin") })
  ∧ (PyValue.pstr "admin") ≠ .pstr "" := by
  exact ⟨by decide, by decide, by decide⟩

/-- C8 amended: on every successful resolution the context holds the
resolved principal, and the effective role is the token's `role` claim
whenever that claim is present AND truthy (non-empty, non-zero), and the
principal's stored role otherwise. -/
theorem effective_role_is_truthy_claim_else_stored (wireOf : String → TokenWire)
    (db : List User) (st : RequestState) (now : Nat) (c : String)
    (payload : Claims) (i : Int) (u : User)
    (hc : c ≠ "")
    (hdec : jwtDecode (wireOf c) settings.jwt_secret_key [settings.jwt_algorithm]
      none now = .ok payload)
    (hsub : pyIntOfOpt (dictGet payload "sub") = .ok i)
    (hf : db.filter (fun v => v.id = i) = [u])
    (hact : u.is_active = true) :
    get_current_user wireOf db (some c) none st now
      = (.ok u, { current_user := some u
                  current_role := if pyTruthy (dictGet payload "role")
                                  then dictGet payload "role"
                                  else some (.pstr u.role) }) := by
  have htry := get_current_user_try_resolved wireOf db c now payload i hdec hsub
  rw [hf] at htry
  simp only [one_or_none] at htry
  rw [hact] at htry
  simp only [Bool.not_true, Bool.false_eq_true, if_false] at htry
  simp [get_current_user, extract_token, hc, htry]

/-- Witness for the amended C8: truthy role claim "boss" wins over the
stored role "admin". -/
theorem effective_role_is_truthy_claim_else_stored_witness :
    get_current_user
        (fun _ => create_access_token [("sub", .pstr "1"), ("role", .pstr "boss")] 0 none)
        [sampleAdmin] (some "bearer-token") none freshState 0
      = (.ok sampleAdmin,
          { current_user := some sampleAdmin, current_role := some (.pstr "boss") }) := by
  have h := effective_role_is_truthy_claim_else_stored
    (fun _ => create_access_token [("sub", .pstr "1"), ("role", .pstr "boss")] 0 none)
    [sampleAdmin] freshState 0 "bearer-token"
    [("iat", .pint 0), ("exp", .pint 604800), ("sub", .pstr "1"), ("role", .pstr "boss")]
    1 sampleAdmin (by decide) (by decide) (by decide) (by decide) (by decide)
  rw [h]
  decide

/-- C5: minting an access token from claims containing string `sub` and
`role` and verifying it (at any instant before its expiry) yields a claims
set whose `exp` minus `iat` is exactly the configured access-token TTL
(`jwt_access_token_expire_minutes`, in seconds), and whose `sub` and
`role` round-trip unchanged. -/
theorem mint_access_verify_roundtrip (C : Claims) (now now2 : Nat) (sub role : String)
    (hsub : dictGet C "sub" = some (.pstr sub))
    (hrole : dictGet C "role" = some (.pstr role))
    (hfresh : now2 ≤ now + settings.jwt_access_token_expire_minutes * 60) :
    ∃ p, verify_token (create_access_token C now none) now2 none none none = .ok p
      ∧ (∃ e i : Int, dictGet p "exp" = some (.pint e) ∧ dictGet p "iat" = some (.pint i)
          ∧ e - i = (settings.jwt_access_token_expire_minutes : Int) * 60)
      ∧ dictGet p "sub" = some (.pstr sub)
      ∧ dictGet p "role" = some (.pstr role) := by
  have hDexp : dictGet (dictSet (dictSet (C.map (fun kv => (kv.1, normalizeValue kv.2)))
      "exp" (.pdatetime (now + settings.jwt_access_token_expire_minutes * 60)))
      "iat" (.pdatetime now)) "exp"
      = some (.pdatetime (now + settings.jwt_access_token_expire_minutes * 60)) := by
    rw [dictGet_dictSet_ne _ _ _ _ (by decide), dictGet_dictSet_self]
  have hdec : jwtDecode (create_access_token C now none) settings.jwt_secret_key
      [settings.jwt_algorithm] none now2
      = .ok ((dictSet (dictSet (C.map (fun kv => (kv.1, normalizeValue kv.2)))
          "exp" (.pdatetime (now + settings.jwt_access_token_expire_minutes * 60)))
          "iat" (.pdatetime now)).map (fun kv => (kv.1, joseEncodeValue kv.1 kv.2))) :=
    jwtDecode_jwtEncode_ok _ now2 _ hDexp hfresh
  refine ⟨_, verify_token_of_decode_ok _ _ _ hdec, ?_, ?_, ?_⟩
  · refine ⟨Int.ofNat (now + settings.jwt_access_token_expire_minutes * 60),
      Int.ofNat now, dictGet_minted_exp _ _ _, dictGet_minted_iat _ _ _, ?_⟩
    simp only [Int.ofNat_eq_coe]
    push_cast
    ring
  · rw [dictGet_minted_other _ _ _ _ (by decide) (by decide), dictGet_mapValues_const, hsub]
    simp [normalizeValue, joseEncodeValue_pstr]
  · rw [dictGet_minted_other _ _ _ _ (by decide) (by decide), dictGet_mapValues_const, hrole]
    simp [normalizeValue, joseEncodeValue_pstr]

/-- Witness for C5 at the spec's example claims. -/
theorem mint_access_verify_roundtrip_witness :
    ∃ p, verify_token
        (create_access_token [("sub", .pstr "abc-123"), ("role", .pstr "admin")] 0 none)
        0 none none none = .ok p
      ∧ (∃ e i : Int, dictGet p "exp" = some (.pint e) ∧ dictGet p "iat" = some (.pint i)
          ∧ e - i = (settings.jwt_access_token_expire_minutes : Int) * 60)
      ∧ dictGet p "sub" = some (.pstr "abc-123")
      ∧ dictGet p "role" = some (.pstr "admin") :=
  mint_access_verify_roundtrip [("sub", .pstr "abc-123"), ("role", .pstr "admin")]
    0 0 "abc-123" "admin" (by decide) (by decide) (by decide)

theorem verify_token_type_mismatch (t : TokenWire) (now : Nat) (payload : Claims)
    (ty : String)
    (h : jwtDecode t settings.jwt_secret_key [settings.jwt_algorithm] none now
      = .ok payload)
    (hty : ty ≠ "")
    (hmis : dictGet payload "type" ≠ some (.pstr ty)) :
    verify_token t now none none (some ty)
      = .error (.valueError ("Invalid token type: expected " ++ ty ++ ", got "
          ++ pyStrOfOpt (dictGet payload "type"))) := by
  simp [verify_token, h, hty, hmis]

/-- C6: a refresh token fails access-only validation with a type-mismatch
error (its `type` claim is "refresh"), and an access token fails
`expected_type = "refresh"` validation (it carries no `type` claim at
all), provided the input claims carry no `type` key themselves and the
check happens before the respective expiry. -/
theorem refresh_access_type_cross_rejection (C : Claims) (now now2 : Nat)
    (htype : dictGet C "type" = none)
    (hr : now2 ≤ now + settings.jwt_refresh_token_expire_hours * 3600)
    (ha : now2 ≤ now + settings.jwt_access_token_expire_minutes * 60) :
    verify_token (create_refresh_token C now) now2 none none (some "access")
      = .error (.valueError "Invalid token type: expected access, got refresh")
  ∧ verify_token (create_access_token C now none) now2 none none (some "refresh")
      = .error (.valueError "Invalid token type: expected refresh, got None") := by
  constructor
  · have hDexp : dictGet (dictSet (dictSet (dictSet
        (C.map (fun kv => (kv.1, normalizeValue kv.2)))
        "exp" (.pdatetime (now + settings.jwt_refresh_token_expire_hours * 3600)))
        "iat" (.pdatetime now)) "type" (.pstr "refresh")) "exp"
        = some (.pdatetime (now + settings.jwt_refresh_token_expire_hours * 3600)) := by
      rw [dictGet_dictSet_ne _ _ _ _ (by decide), dictGet_dictSet_ne _ _ _ _ (by decide),
        dictGet_dictSet_self]
    have hdec : jwtDecode (create_refresh_token C now) settings.jwt_secret_key
        [settings.jwt_algorithm] none now2
        = .ok ((dictSet (dictSet (dictSet (C.map (fun kv => (kv.1, normalizeValue kv.2)))
            "exp" (.pdatetime (now + settings.jwt_refresh_token_expire_hours * 3600)))
            "iat" (.pdatetime now)) "type" (.pstr "refresh")).map
            (fun kv => (kv.1, joseEncodeValue kv.1 kv.2))) :=
      jwtDecode_jwtEncode_ok _ now2 _ hDexp hr
    have hPtype : dictGet ((dictSet (dictSet (dictSet
        (C.map (fun kv => (kv.1, normalizeValue kv.2)))
        "exp" (.pdatetime (now + settings.jwt_refresh_token_expire_hours * 3600)))
        "iat" (.pdatetime now)) "type" (.pstr "refresh")).map
        (fun kv => (kv.1, joseEncodeValue kv.1 kv.2))) "type"
        = some (.pstr "refresh") := by
      rw [dictGet_mapValues, dictGet_dictSet_self]
      simp [joseEncodeValue_pstr]
    have h := verify_token_type_mismatch _ now2 _ "access" hdec (by decide)
      (by rw [hPtype]; decide)
    rw [h, hPtype]
    rfl
  · have hDexp : dictGet (dictSet (dictSet (C.map (fun kv => (kv.1, normalizeValue kv.2)))
        "exp" (.pdatetime (now + settings.jwt_access_token_expire_minutes * 60)))
        "iat" (.pdatetime now)) "exp"
        = some (.pdatetime (now + settings.jwt_access_token_expire_minutes * 60)) := by
      rw [dictGet_dictSet_ne _ _ _ _ (by decide), dictGet_dictSet_self]
    have hdec : jwtDecode (create_access_token C now none) settings.jwt_secret_key
        [settings.jwt_algorithm] none now2
        = .ok ((dictSet (dictSet (C.map (fun kv => (kv.1, normalizeValue kv.2)))
            "exp" (.pdatetime (now + settings.jwt_access_token_expire_minutes * 60)))
            "iat" (.pdatetime now)).map (fun kv => (kv.1, joseEncodeValue kv.1 kv.2))) :=
      jwtDecode_jwtEncode_ok _ now2 _ hDexp ha
    have hPtype : dictGet ((dictSet (dictSet (C.map (fun kv => (kv.1, normalizeValue kv.2)))
        "exp" (.pdatetime (now + settings.jwt_access_token_expire_minutes * 60)))
        "iat" (.pdatetime now)).map (fun kv => (kv.1, joseEncodeValue kv.1 kv.2))) "type"
        = none := by
      rw [dictGet_minted_other _ _ _ _ (by decide) (by decide), dictGet_mapValues_const,
        htype]
      rfl
    have h := verify_token_type_mismatch _ now2 _ "refresh" hdec (by decide)
      (by rw [hPtype]; decide)
    rw [h, hPtype]
    rfl

/-- Witness for C6 at concrete claims `{"sub": "1"}`. -/
theorem refresh_access_type_cross_rejection_witness :
    verify_token (create_refresh_token [("sub", .pstr "1")] 0) 0 none none (some "access")
      = .error (.valueError "Invalid token type: expected access, got refresh")
  ∧ verify_token (create_access_token [("sub", .pstr "1")] 0 none) 0 none none
        (some "refresh")
      = .error (.valueError "Invalid token type: expected refresh, got None") :=
  refresh_access_type_cross_rejection [("sub", .pstr "1")] 0 0
    (by decide) (by decide) (by decide)

end FastApiAuth
